/-
  Verification of the pulumi-twentysix provider's message protocol client and
  reconciliation engine, as a shallow embedding of the Go source.

  External collaborators (HTTP transport, file system, go-ethereum crypto,
  HD-wallet library) are modelled as explicit oracle parameters or observation
  traces; the control flow of each embedded function follows the corresponding
  Go function line by line.
-/
import Mathlib

namespace TwentySix

/-! ## Data model (src/unnamed/part_001, package basics) -/

/-- `MessageConfirmation` struct (part_001). -/
structure MessageConfirmation where
  chain : String
  hash : String
  height : Nat
  deriving Repr, DecidableEq, Inhabited

/-- `Message` struct (part_001).  `Time float64` is modelled as integer
seconds: no claim depends on sub-second precision. -/
structure Message where
  type : String
  chain : String
  sender : String
  time : Int
  channel : String
  signature : String
  itemHash : String
  itemType : String
  itemContent : String
  confirmations : List MessageConfirmation
  confirmed : Bool
  deriving Repr, DecidableEq, Inhabited

/-- `GetMessageResponse` struct (part_001). -/
structure GetMessageResponse where
  messages : List Message
  paginationPerPage : Nat
  paginationPage : Nat
  paginationTotal : Nat
  paginationItem : String
  deriving Repr, DecidableEq, Inhabited

/-- Message status constants (part_001). -/
def PendingMessageStatus : String := "pending"

def ProcessedMessageStatus : String := "processed"

def RejectedMessageStatus : String := "rejected"

def ForgottenMessageStatus : String := "forgotten"

/-- Modelled from the spec: `SucceedMessageStatus` is referenced by
`TwentySixFunction.Create` (function.go line 133) but its declaration is not
under src/; it is the publication status the index reports on a successful
broadcast. -/
def SucceedMessageStatus : String := "success"

/-- Modelled from the spec: `SchedulerAllocation` is the scheduler-assigned
placement record ("allocation") returned by `GetInstanceState`; its declaration
is not under src/.  Only the `VmHash` field is referenced by the sources
(function.go line 181). -/
structure SchedulerAllocation where
  vmHash : String
  deriving Repr, DecidableEq, Inhabited

/-- Modelled from the spec: `MessageResponse` is the broadcast acknowledgment
carrying a message status and a publication status; its declaration is not
under src/.  The fields are those read by `TwentySixFunction.Create`
(function.go lines 129-133). -/
structure MessageResponse where
  status : String
  publicationStatusStatus : String
  deriving Repr, DecidableEq, Inhabited

/-! ## Protocol client: GetMessageByHash (both implementations)

The HTTP fetch and JSON parse are external; the embedded functions take the
parsed `GetMessageResponse` and perform the repository's own decision logic.
A Go slice index out of range is a runtime panic; the embedding makes that
outcome explicit with a dedicated constructor. -/

/-- Outcome of a `GetMessageByHash` call: the returned message, the returned
error string, or a runtime panic (Go index out of range). -/
inductive FetchOutcome where
  | ok (m : Message)
  | err (e : String)
  | panic
  deriving Repr, DecidableEq

/-- `TwentySixClient.GetMessageByHash`, basics package
(src/provider/pkg/basics/client.go lines 58-62): if `PaginationTotal != 1`
return the error "message not found", else return `Messages[0]`. -/
def basicsGetMessageByHash (result : GetMessageResponse) : FetchOutcome :=
  if result.paginationTotal ≠ 1 then
    .err "message not found"
  else
    match result.messages.get? 0 with
    | some m => .ok m
    | none => .panic

/-- `TwentySixClient.GetMessageByHash`, account package
(src/provider/pkg/account/client.go lines 54-58): if `PaginationTotal != 1`
return the error "message not found", else return `Messages[1]`. -/
def accountGetMessageByHash (result : GetMessageResponse) : FetchOutcome :=
  if result.paginationTotal ≠ 1 then
    .err "message not found"
  else
    match result.messages.get? 1 with
    | some m => .ok m
    | none => .panic

/-! ## Reconciliation engine: Delete (volume.go lines 126-144, function.go
lines 197-215; the two bodies are textually identical) -/

/-- `TwentySixVolume.Delete` / `TwentySixFunction.Delete`.  The result of the
`GetMessageByHash` call and the behaviour of `ForgetMessage` are passed in as
observations.  Returns the hash passed to `ForgetMessage` (if it was called at
all) and the error returned to the caller (`none` = success). -/
def resourceDelete (lookup : Except String Message)
    (forget : String → Except String MessageResponse) :
    Option String × Option String :=
  match lookup with
  | .error e =>
    if e == "message not found" then (none, none)
    else (none, some e)
  | .ok message =>
    match forget message.itemHash with
    | .error e => (some message.itemHash, some e)
    | .ok _ => (some message.itemHash, none)

/-! ## Reconciliation engine: Volume Diff (volume.go lines 103-124) -/

/-- The two fields of `p.DiffResponse` set by the sources. -/
structure DiffResponse where
  deleteBeforeReplace : Bool
  hasChanges : Bool
  deriving Repr, DecidableEq

/-- `err == nil` on a Go `(value, error)` pair modelled as `Except`. -/
def errIsNil (e : Except String α) : Bool :=
  match e with
  | .ok _ => true
  | .error _ => false

/-- `TwentySixVolume.Diff`: recompute the directory hash (external
`hashdir.Make`, passed as an observation), look up the old message on the
index (observation), then compare:
`if olds.FolderHash == dirHash && err == nil` then no changes, else
`HasChanges = true` with `DeleteBeforeReplace = (err != nil)`. -/
def volumeDiff (oldsFolderHash : String) (dirHashRes : Except String String)
    (lookupRes : Except String Message) : Except String DiffResponse :=
  match dirHashRes with
  | .error e => .error e
  | .ok dirHash =>
    if oldsFolderHash == dirHash && errIsNil lookupRes then
      .ok ⟨false, false⟩
    else
      .ok ⟨!errIsNil lookupRes, true⟩

/-! ## Account and Function resource records (volume.go, function.go) -/

/-- `TwentySixAccountArgs` (basics, volume.go lines 194-201). -/
structure TwentySixAccountArgs where
  privateKey : String
  mnemonic : String
  derivationPath : String
  deriving Repr, DecidableEq, Inhabited

/-- `TwentySixAccountState` (basics, volume.go lines 204-210): embeds the args
plus the derived `Address` and `PublicKey`. -/
structure TwentySixAccountState where
  args : TwentySixAccountArgs
  address : String
  publicKey : String
  deriving Repr, DecidableEq, Inhabited

/-- Go zero value of `TwentySixAccountState` (all string fields empty). -/
def zeroAccountState : TwentySixAccountState :=
  { args := { privateKey := "", mnemonic := "", derivationPath := "" }
    address := "", publicKey := "" }

/-- `TwentySixFunctionFunctionEnvironment` (function.go lines 26-31). -/
structure FunctionEnvironment where
  reproducible : Bool
  internet : Bool
  alephApi : Bool
  sharedCache : Bool
  deriving Repr, DecidableEq, Inhabited

/-- `TwentySixFunctionMachineResources` (function.go lines 33-37). -/
structure MachineResources where
  vcpus : Nat
  memory : Nat
  seconds : Nat
  deriving Repr, DecidableEq, Inhabited

/-- `TwentySixFunctionNodeRequirements` (function.go lines 39-42). -/
structure NodeRequirements where
  owner : String
  addressRegex : String
  deriving Repr, DecidableEq, Inhabited

/-- `TwentySixFunctionCpuProperties` (function.go lines 44-47). -/
structure CpuProperties where
  architecture : String
  vendor : String
  deriving Repr, DecidableEq, Inhabited

/-- `TwentySixFunctionHostRequirements` (function.go lines 49-52). -/
structure HostRequirements where
  cpu : CpuProperties
  node : NodeRequirements
  deriving Repr, DecidableEq, Inhabited

/-- `TwentySixFunctionPayment` (function.go lines 77-81). -/
structure Payment where
  chain : String
  receiver : String
  type : String
  deriving Repr, DecidableEq, Inhabited

/-- `ParentVolume` (part_001 lines 175-178). -/
structure ParentVolume where
  ref : String
  useLatest : Bool
  deriving Repr, DecidableEq, Inhabited

/-- One entry of the `Volumes []interface{}` slice: in the sources it holds
immutable, ephemeral or persistent volume records (function.go lines 54-75);
`reflect.DeepEqual` on the slice is structural equality, modelled by
`DecidableEq` on this sum. -/
inductive MachineVolume where
  | immutable (comment mount : List String) (ref : String) (useLatest : Bool)
  | ephemeral (comment mount : List String) (isEphemeral : Bool) (sizeMib : Nat)
  | persistent (comment mount : List String) (parent : ParentVolume)
      (persistence name : String) (sizeMib : Nat)
  deriving Repr, DecidableEq, Inhabited

/-- `TwentySixFunctionArgs` (function.go lines 88-106).  Go maps are modelled
as association lists; pagination of fields follows the source order. -/
structure TwentySixFunctionArgs where
  account : TwentySixAccountState
  channel : String
  allowAmend : Bool
  metadata : List (String × String)
  authorizedKeys : List String
  -- Go field `Variables` (the spelling `variables` is a Lean keyword)
  vars : List (String × String)
  environment : FunctionEnvironment
  resources : MachineResources
  payment : Payment
  requirements : HostRequirements
  volumes : List MachineVolume
  replaces : String
  deriving Repr, DecidableEq, Inhabited

/-- `TwentySixFunctionState` (function.go lines 109-116): embedded args plus
the scheduler allocation and the broadcast message hash. -/
structure TwentySixFunctionState where
  args : TwentySixFunctionArgs
  schedulerAllocation : SchedulerAllocation
  messageHash : String
  deriving Repr, DecidableEq, Inhabited

/-! ## Reconciliation engine: Function Diff (function.go lines 164-195) -/

/-- `TwentySixFunction.Diff`.  The Go code builds `previous` as a
`TwentySixFunctionArgs` literal copying only the ten desired-spec fields of
`olds` (leaving `Account` and `Channel` at their zero values), calls
`GetInstanceState(olds.SchedulerAllocation.VmHash)` (its error outcome is the
`getInstanceStateFailed` observation), sets
`instanceStillExists := (err != nil)`, and reports no changes exactly when
`reflect.DeepEqual(previous, news) && instanceStillExists`. -/
def functionDiff (olds : TwentySixFunctionState) (news : TwentySixFunctionArgs)
    (getInstanceStateFailed : Bool) : DiffResponse :=
  let previous : TwentySixFunctionArgs :=
    { account := zeroAccountState
      channel := ""
      allowAmend := olds.args.allowAmend
      metadata := olds.args.metadata
      authorizedKeys := olds.args.authorizedKeys
      vars := olds.args.vars
      environment := olds.args.environment
      resources := olds.args.resources
      payment := olds.args.payment
      requirements := olds.args.requirements
      volumes := olds.args.volumes
      replaces := olds.args.replaces }
  let instanceStillExists := getInstanceStateFailed
  if previous == news && instanceStillExists then
    ⟨false, false⟩
  else
    ⟨true, true⟩

/-! ## Hex encoding (`hexutil.Encode`: "0x" prefix + lowercase hex) -/

/-- Lowercase hex digit for a value below 16. -/
def hexDigitChar (n : Nat) : Char :=
  if n < 10 then Char.ofNat (48 + n) else Char.ofNat (87 + n)

/-- Two lowercase hex digits of one byte. -/
def byteToHex (b : Nat) : String :=
  String.mk [hexDigitChar (b / 16), hexDigitChar (b % 16)]

/-- `hexutil.Encode`: `"0x"` followed by the lowercase hex of each byte. -/
def hexutilEncode (bytes : List Nat) : String :=
  "0x" ++ String.join (bytes.map byteToHex)

/-! ## Message model: SignMessage (part_001 lines 223-251) -/

/-- `crypto.RecoveryIDOffset` in go-ethereum: index of the recovery-id byte in
a 65-byte `[R || S || V]` signature. -/
def RecoveryIDOffset : Nat := 64

/-- External go-ethereum collaborators used by `Message.SignMessage`, passed
as an oracle.  `K` is the opaque ECDSA private-key handle produced by
`crypto.ToECDSA`. -/
structure SignOracle (K : Type) where
  textHash : String → List Nat
  hexutilDecode : String → Except String (List Nat)
  cryptoToECDSA : List Nat → Except String K
  cryptoSign : List Nat → K → Except String (List Nat)

/-- `Message.getVerificationPayload` (part_001 lines 223-228):
`fmt.Sprintf("%s\n%s\n%s\n%s", msg.Chain, msg.Sender, msg.Type, msg.ItemHash)`. -/
def getVerificationPayload (msg : Message) : String :=
  msg.chain ++ "\n" ++ msg.sender ++ "\n" ++ msg.type ++ "\n" ++ msg.itemHash

/-- `Message.SignMessage` (part_001 lines 230-251): hash the verification
payload with `accounts.TextHash`, decode and validate the key, sign with
`crypto.Sign`, add 27 to the recovery-id byte (byte arithmetic wraps mod 256),
hex-encode into `msg.Signature`. -/
def signMessage {K : Type} (o : SignOracle K) (msg : Message) (pkey : String) :
    Except String Message :=
  let messageHash := o.textHash (getVerificationPayload msg)
  match o.hexutilDecode pkey with
  | .error e => .error e
  | .ok privateKeyBytes =>
    match o.cryptoToECDSA privateKeyBytes with
    | .error e => .error e
    | .ok key =>
      match o.cryptoSign messageHash key with
      | .error e => .error e
      | .ok signature =>
        let signature :=
          signature.set RecoveryIDOffset
            ((signature.getD RecoveryIDOffset 0 + 27) % 256)
        .ok { msg with signature := hexutilEncode signature }

/-! ## Create outcome type

A Go resource `Create` returns `(string, State, error)`; additionally the
basics Account Create can terminate the whole process through `log.Fatal`
(and `MustParseDerivationPath` can panic), which is an outcome distinct from
returning an error. -/

/-- Outcome of a resource `Create`: normal return with id and state, error
return, or abnormal process termination (`log.Fatal` / panic). -/
inductive CreateOutcome (S : Type) where
  | ok (id : String) (state : S)
  | err (e : String)
  | fatal (e : String)
  deriving Repr, DecidableEq

/-- `true` exactly on the error-return outcome. -/
def CreateOutcome.isErrReturn {S : Type} : CreateOutcome S → Bool
  | .err _ => true
  | _ => false

/-! ## Reconciliation engine: Account Create (volume.go lines 213-282) -/

/-- The single-quote character, used inside the default derivation path. -/
def singleQuote : String := String.singleton (Char.ofNat 39)

/-- The default derivation path `m/44'/60'/0'/0/0` (volume.go line 250). -/
def defaultDerivationPath : String :=
  "m/44" ++ singleQuote ++ "/60" ++ singleQuote ++ "/0" ++ singleQuote ++ "/0/0"

/-- External collaborators of `TwentySixAccount.Create` (go-ethereum and the
HD-wallet library), passed as an oracle.  `W` is the opaque wallet handle, `A`
the opaque derived-account handle. -/
structure AccountOracle (W A : Type) where
  hexutilDecode : String → Except String (List Nat)
  cryptoToECDSA : List Nat → Except String (List Nat)
  publicKeyCast : List Nat → Option (List Nat)
  pubkeyToAddressHex : List Nat → String
  newFromMnemonic : String → Except String W
  mustParseDerivationPath : String → Option String
  derive : W → String → Except String A
  publicKeyBytes : W → A → Except String (List Nat)
  privateKeyBytes : W → A → Except String (List Nat)
  addressHex : W → A → Except String String

/-- `TwentySixAccount.Create` (basics, volume.go lines 213-282).  The private
key branch returns its errors; in the mnemonic branch a failing
`hdwallet.NewFromMnemonic` hits `log.Fatal(err)` (process termination, the
`.fatal` outcome), and an invalid derivation path panics inside
`MustParseDerivationPath`. -/
def accountCreate {W A : Type} (o : AccountOracle W A) (name : String)
    (input : TwentySixAccountArgs) (preview : Bool) :
    CreateOutcome TwentySixAccountState :=
  let state : TwentySixAccountState := { args := input, address := "", publicKey := "" }
  if preview then .ok name state
  else if input.privateKey.length > 0 then
    match o.hexutilDecode input.privateKey with
    | .error _ => .err "error casting public key to bytes"
    | .ok privateKeyBytes =>
      match o.cryptoToECDSA privateKeyBytes with
      | .error _ => .err "error casting public key to ECDSA"
      | .ok privateKey =>
        match o.publicKeyCast privateKey with
        | none => .err "error casting public key to ECDSA"
        | some publicKeyECDSA =>
          .ok name { state with
            publicKey := hexutilEncode publicKeyECDSA
            address := o.pubkeyToAddressHex publicKeyECDSA }
  else if input.mnemonic.length > 0 then
    match o.newFromMnemonic input.mnemonic with
    | .error e => .fatal e
    | .ok wallet =>
      let derivationPath :=
        if input.derivationPath.length == 0 then defaultDerivationPath
        else input.derivationPath
      match o.mustParseDerivationPath derivationPath with
      | none => .fatal "invalid derivation path"
      | some path =>
        match o.derive wallet path with
        | .error e => .err e
        | .ok acct =>
          match o.publicKeyBytes wallet acct with
          | .error e => .err e
          | .ok publicKey =>
            match o.privateKeyBytes wallet acct with
            | .error e => .err e
            | .ok privateKey =>
              match o.addressHex wallet acct with
              | .error e => .err e
              | .ok address =>
                .ok name
                  { args :=
                      { privateKey := hexutilEncode privateKey
                        mnemonic := input.mnemonic
                        derivationPath := derivationPath }
                    publicKey := hexutilEncode publicKey
                    address := address }
  else .err "no private key or mnemonic provided"

/-! ## Reconciliation engine: Volume Create (volume.go lines 52-101) -/

/-- `TwentySixVolumeArgs` (volume.go lines 29-38). -/
structure TwentySixVolumeArgs where
  account : TwentySixAccountState
  channel : String
  folderPath : String
  size : Int
  deriving Repr, DecidableEq, Inhabited

/-- `TwentySixVolumeState` (volume.go lines 41-49). -/
structure TwentySixVolumeState where
  args : TwentySixVolumeArgs
  folderHash : String
  fileHash : String
  messageHash : String
  deriving Repr, DecidableEq, Inhabited

/-- `folderExists` (volume.go lines 146-152): `false` iff `os.Stat` reports
not-exist; the `os.Stat`/`os.IsNotExist` outcome is the oracle. -/
def folderExists (statIsNotExist : String → Bool) (path : String) : Bool :=
  if statIsNotExist path then false else true

/-- The folder-existence guard of `TwentySixVolume.Create` (volume.go line 58):
`state.FolderPath == "" && !folderExists(state.FolderPath)`. -/
def volumeFolderGuardRejects (statIsNotExist : String → Bool)
    (path : String) : Bool :=
  path == "" && !(folderExists statIsNotExist path)

/-- External collaborators of `TwentySixVolume.Create`: the file system stat,
`hashdir.Make(path, "sha256")`, the `mksquashfs` subprocess, `FolderSize`, and
`client.StoreFile` (upload; returns the message and the file hash). -/
structure VolumeOracle where
  statIsNotExist : String → Bool
  hashdirMake : String → Except String String
  mksquashfs : String → String → Except String Unit
  folderSize : String → Except String Int
  storeFile : String → Except String (Message × String)

/-- `TwentySixVolume.Create` (volume.go lines 52-101).  The second component
records whether the network upload (`StoreFile`) was reached. -/
def volumeCreate (o : VolumeOracle) (now : Int) (name : String)
    (input : TwentySixVolumeArgs) (preview : Bool) :
    CreateOutcome TwentySixVolumeState × Bool :=
  let state : TwentySixVolumeState :=
    { args := input, folderHash := "", fileHash := "", messageHash := "" }
  if preview then (.ok name state, false)
  else if volumeFolderGuardRejects o.statIsNotExist input.folderPath then
    (.err "folder dosn't exists", false)
  else
    match o.hashdirMake input.folderPath with
    | .error e => (.err e, false)
    | .ok dirHash =>
      let filesystemPath := "/tmp/pulumi-squashfs-" ++ toString now ++ ".squashfs"
      match o.mksquashfs input.folderPath filesystemPath with
      | .error e => (.err e, false)
      | .ok _ =>
        match o.folderSize filesystemPath with
        | .error e => (.err e, false)
        | .ok size =>
          match o.storeFile filesystemPath with
          | .error e => (.err e, true)
          | .ok (message, fileHash) =>
            (.ok name
              { args := { input with size := size }
                folderHash := dirHash
                fileHash := fileHash
                messageHash := message.itemHash }, true)

/-! ## Reconciliation engine: Function Create (function.go lines 119-161) -/

/-- `timeout := int64(1800)` (function.go line 142). -/
def functionCreateTimeout : Int := 1800

/-- `time.Sleep(10 * time.Second)` (function.go line 145): seconds slept at
the top of every poll iteration. -/
def functionCreatePollInterval : Int := 10

/-- One observed iteration of the allocation poll loop: `time` is
`time.Now().Unix()` sampled in that iteration, `result` the outcome of
`client.GetInstanceState`. -/
structure PollStep where
  time : Int
  result : Except String SchedulerAllocation

/-- Outcome of the poll loop over a finite observation trace: an allocation
was obtained, the timeout fired, or the trace ended with the loop still
running. -/
inductive WaitOutcome where
  | allocated (a : SchedulerAllocation)
  | timedOut
  | stillRunning
  deriving Repr, DecidableEq

/-- The `for !instanceAvailable` poll loop of `TwentySixFunction.Create`
(function.go lines 144-159): each iteration sleeps, queries the scheduler, and
on a query error returns the timeout error when `now > startAt+timeout`,
otherwise continues; on success the allocation is taken. -/
def waitForAllocation (startAt timeout : Int) : List PollStep → WaitOutcome
  | [] => .stillRunning
  | step :: rest =>
    match step.result with
    | .ok alloc => .allocated alloc
    | .error _ =>
      if step.time > startAt + timeout then .timedOut
      else waitForAllocation startAt timeout rest

/-- Result of `TwentySixFunction.Create`: the outcome (`none` when the poll
loop was still running at the end of the observation trace) and whether the
broadcast (`client.CreateFunction`) was performed. -/
structure FunctionCreateResult where
  outcome : Option (CreateOutcome TwentySixFunctionState)
  broadcastPerformed : Bool
  deriving Repr, DecidableEq

set_option linter.unusedVariables false in
/-- `TwentySixFunction.Create` (function.go lines 119-161).  The source takes
the `preview` flag but never reads it: the client is built and
`client.CreateFunction(input)` is invoked unconditionally, then the rejected /
non-succeeded statuses are checked, then the allocation poll loop runs with
`timeout = 1800` and a 10 second sleep per iteration. -/
def functionCreate (name : String) (input : TwentySixFunctionArgs)
    (createFunctionResult : Except String (Message × MessageResponse))
    (startAt : Int) (pollTrace : List PollStep) (preview : Bool) :
    FunctionCreateResult :=
  match createFunctionResult with
  | .error e => ⟨some (.err e), true⟩
  | .ok (message, response) =>
    if response.status == RejectedMessageStatus then
      ⟨some (.err "an error occured on function message"), true⟩
    else if response.publicationStatusStatus != SucceedMessageStatus then
      ⟨some (.err "an error occured on function message"), true⟩
    else
      match waitForAllocation startAt functionCreateTimeout pollTrace with
      | .allocated alloc =>
        ⟨some (.ok name
          { args := input
            schedulerAllocation := alloc
            messageHash := message.itemHash }), true⟩
      | .timedOut => ⟨some (.err "timeout waiting for instance"), true⟩
      | .stillRunning => ⟨none, true⟩

/-! ## Protocol client: StoreFile tail and GetVolumeByItemHash
(client.go lines 244-259 and 573-600) -/

/-- `StoreMessageContent` (part_001 lines 84-90). -/
structure StoreMessageContent where
  address : String
  time : Int
  itemType : String
  itemHash : String
  ref : String
  deriving Repr, DecidableEq, Inhabited

/-- `StoreIPFSFileResponse` (part_001 lines 202-207). -/
structure StoreIPFSFileResponse where
  hash : String
  status : String
  name : String
  size : Nat
  deriving Repr, DecidableEq, Inhabited

/-- `time.Sleep(5 * time.Second)` (client.go line 251): the single fixed delay
between upload acceptance and the index query. -/
def storeFileDelaySeconds : Int := 5

/-- `TwentySixClient.GetVolumeByItemHash` (client.go lines 573-600): walk the
paginated volume listing (one trace entry per `GetVolumes` page call, pages
1, 2, ...), returning the first message whose parsed `ItemContent` carries the
wanted hash; on an exhausted listing return the error "volume not found".
`parse` models `json.Unmarshal` into `StoreMessageContent` (the source ignores
its error, leaving the zero value).  `none` means the observation trace ended
while the loop was still requesting pages. -/
def getVolumeByItemHashLoop (hash : String)
    (parse : String → StoreMessageContent) :
    List (Except String (List Message × Nat)) → Option (Except String Message)
  | [] => none
  | pageRes :: rest =>
    match pageRes with
    | .error e => some (.error e)
    | .ok (volumes, remainingItems) =>
      match volumes.find? (fun v => (parse v.itemContent).itemHash == hash) with
      | some v => some (.ok v)
      | none =>
        if remainingItems > 0 then getVolumeByItemHashLoop hash parse rest
        else some (.error "volume not found")

/-- The tail of `TwentySixClient.StoreFile` (client.go lines 250-258): after
the upload response is parsed, sleep 5 seconds once, perform exactly one
`GetVolumeByItemHash(storeFileResponse.Hash)` call (its result is `lookup`),
and return its error unchanged on failure — there is no retry loop. -/
def storeFileFinalize (storeFileResponse : StoreIPFSFileResponse)
    (lookup : Except String Message) : Except String (Message × String) :=
  match lookup with
  | .error e => .error e
  | .ok createdMessage => .ok (createdMessage, storeFileResponse.hash)

/-! ## Concrete sample values used by witnesses and counterexamples -/

/-- A concrete message. -/
def sampleMessage : Message :=
  { type := "STORE", chain := "ETH", sender := "0xabc", time := 1700000000
    channel := "TEST", signature := "", itemHash := "d51f34748974a1e6"
    itemType := "inline", itemContent := "{}", confirmations := []
    confirmed := false }

/-- A single-match index response: one matching record, `PaginationTotal = 1`. -/
def singleMatchResponse : GetMessageResponse :=
  { messages := [sampleMessage], paginationPerPage := 20, paginationPage := 1
    paginationTotal := 1, paginationItem := "hash" }

/-- An empty index response: zero matching records. -/
def emptyResponse : GetMessageResponse :=
  { messages := [], paginationPerPage := 20, paginationPage := 1
    paginationTotal := 0, paginationItem := "hash" }

/-- Function args whose every field is the Go zero value. -/
def zeroFunctionArgs : TwentySixFunctionArgs :=
  { account := zeroAccountState, channel := "", allowAmend := false
    metadata := [], authorizedKeys := [], vars := []
    environment := ⟨false, false, false, false⟩
    resources := ⟨0, 0, 0⟩, payment := ⟨"", "", ""⟩
    requirements := ⟨⟨"", ""⟩, ⟨"", ""⟩⟩, volumes := [], replaces := "" }

/-- An old Function state recording the zero desired spec and a live VM hash. -/
def sampleOldFunctionState : TwentySixFunctionState :=
  { args := zeroFunctionArgs, schedulerAllocation := ⟨"vmhash123"⟩
    messageHash := "msghash456" }

/-! ## C3 -/

/-- C3: the claim says `GetMessageByHash` never crashes on a well-formed index
response.  The account-package implementation returns `result.Messages[1]`
when `PaginationTotal == 1`, so on the canonical well-formed single-match
response (one record, total 1) it panics with an index out of range, while the
basics-package sibling correctly returns `Messages[0]`; both return the
"message not found" error when the index reports zero matching records. -/
theorem c3_account_get_message_by_hash_panics_on_single_match :
    accountGetMessageByHash singleMatchResponse = .panic ∧
    basicsGetMessageByHash singleMatchResponse = .ok sampleMessage ∧
    accountGetMessageByHash emptyResponse = .err "message not found" ∧
    basicsGetMessageByHash emptyResponse = .err "message not found" := by
  refine ⟨rfl, rfl, rfl, rfl⟩

/-! ## C2 -/

/-- C2: the claim says Function Diff reports no changes only when the recorded
desired-spec fields equal the new spec AND the instance is confirmed still
live.  The source computes `instanceStillExists := (err != nil)`, inverting
the liveness check: with identical specs, a SUCCESSFUL `GetInstanceState`
(instance live, `getInstanceStateFailed = false`) yields
`HasChanges = true, DeleteBeforeReplace = true`, while a FAILED liveness probe
yields no-changes. -/
theorem c2_function_diff_liveness_inverted :
    functionDiff sampleOldFunctionState zeroFunctionArgs false = ⟨true, true⟩ ∧
    functionDiff sampleOldFunctionState zeroFunctionArgs true = ⟨false, false⟩ := by
  refine ⟨rfl, rfl⟩

/-! ## C4 -/

/-- C4: for every old state, Delete resolves the message hash first; a
"message not found" resolution error is swallowed and Delete succeeds without
calling `ForgetMessage`; any other resolution error is returned unchanged
(again without a forget broadcast); a successful resolution leads to
`ForgetMessage` on the resolved message's item hash. -/
theorem c4_delete_idempotent_and_error_preserving
    (lookup : Except String Message)
    (forget : String → Except String MessageResponse) :
    (lookup = .error "message not found" →
      resourceDelete lookup forget = (none, none)) ∧
    (∀ e, e ≠ "message not found" → lookup = .error e →
      resourceDelete lookup forget = (none, some e)) ∧
    (∀ m, lookup = .ok m →
      (resourceDelete lookup forget).1 = some m.itemHash) := by
  refine ⟨?_, ?_, ?_⟩
  · rintro rfl
    rfl
  · rintro e he rfl
    simp [resourceDelete, he]
  · rintro m rfl
    cases h : forget m.itemHash <;> simp [resourceDelete, h]

/-- C4 witness: deleting when the message already resolves to not-found
succeeds without a forget broadcast, and a distinct resolution error is
surfaced unchanged. -/
theorem c4_delete_witness :
    resourceDelete (.error "message not found") (fun _ => .ok default)
      = (none, none) ∧
    resourceDelete (.error "connection refused") (fun _ => .ok default)
      = (none, some "connection refused") := by
  refine ⟨?_, ?_⟩
  · exact (c4_delete_idempotent_and_error_preserving
      (.error "message not found") (fun _ => .ok default)).1 rfl
  · exact (c4_delete_idempotent_and_error_preserving
      (.error "connection refused") (fun _ => .ok default)).2.1
      "connection refused" (by decide) rfl

/-! ## C5 -/

/-- C5: Volume Diff reports no changes exactly when the recomputed directory
hash equals the stored `FolderHash` AND the old message still resolves; an
unresolvable remote message forces `HasChanges` with `DeleteBeforeReplace`
regardless of the hash comparison; a hash mismatch alone (remote resolvable)
reports `HasChanges` without `DeleteBeforeReplace`. -/
theorem c5_volume_diff_hash_and_resolvability
    (fh dirHash : String) (m : Message) (e : String)
    (lookup : Except String Message) :
    (volumeDiff fh (.ok dirHash) lookup = .ok ⟨false, false⟩ ↔
      fh = dirHash ∧ errIsNil lookup = true) ∧
    volumeDiff fh (.ok dirHash) (.error e) = .ok ⟨true, true⟩ ∧
    (fh ≠ dirHash → volumeDiff fh (.ok dirHash) (.ok m) = .ok ⟨false, true⟩) := by
  refine ⟨?_, ?_, ?_⟩
  · constructor
    · intro h
      by_cases hfh : fh = dirHash
      · refine ⟨hfh, ?_⟩
        cases hl : lookup with
        | ok _ => rfl
        | error _ =>
          simp [volumeDiff, hl, errIsNil, hfh] at h
      · simp [volumeDiff, hfh] at h
    · rintro ⟨rfl, hl⟩
      simp [volumeDiff, hl]
  · cases hfh : fh == dirHash <;> simp [volumeDiff, errIsNil, hfh]
  · intro hfh
    simp [volumeDiff, errIsNil, hfh]

/-- C5 witness: with matching hash and resolvable message the diff is empty;
flipping resolvability alone, or the hash alone, reports changes with the
claimed delete-before-replace flags. -/
theorem c5_volume_diff_witness :
    volumeDiff "h1" (.ok "h1") (.ok sampleMessage) = .ok ⟨false, false⟩ ∧
    volumeDiff "h1" (.ok "h1") (.error "message not found") = .ok ⟨true, true⟩ ∧
    volumeDiff "h1" (.ok "h2") (.ok sampleMessage) = .ok ⟨false, true⟩ := by
  refine ⟨?_, ?_, ?_⟩
  · exact (c5_volume_diff_hash_and_resolvability "h1" "h1" sampleMessage ""
      (.ok sampleMessage)).1.mpr ⟨rfl, rfl⟩
  · exact (c5_volume_diff_hash_and_resolvability "h1" "h1" sampleMessage
      "message not found" (.ok sampleMessage)).2.1
  · exact (c5_volume_diff_hash_and_resolvability "h1" "h2" sampleMessage ""
      (.ok sampleMessage)).2.2 (by decide)

/-! ## C10 -/

/-- C10: the folder-existence guard of Volume Create rejects only when
`FolderPath` is the empty string (given that `os.Stat("")` reports not-exist);
every non-empty path passes the guard — even one that does not exist on disk —
and Create proceeds to directory hashing, whose failure (not the guard's) is
then the returned error. -/
theorem c10_volume_folder_guard
    (stat : String → Bool) (path : String) (o : VolumeOracle) (now : Int)
    (name : String) (input : TwentySixVolumeArgs) (e : String) :
    (volumeFolderGuardRejects stat path = true → path = "") ∧
    (path ≠ "" → volumeFolderGuardRejects stat path = false) ∧
    (input.folderPath = "" → o.statIsNotExist "" = true →
      (volumeCreate o now name input false).1 = .err "folder dosn't exists") ∧
    (input.folderPath ≠ "" → o.hashdirMake input.folderPath = .error e →
      (volumeCreate o now name input false).1 = .err e) := by
  refine ⟨?_, ?_, ?_, ?_⟩
  · intro h
    by_contra hne
    simp [volumeFolderGuardRejects, hne] at h
  · intro hne
    simp [volumeFolderGuardRejects, hne]
  · intro hempty hstat
    simp [volumeCreate, volumeFolderGuardRejects, folderExists, hempty, hstat]
  · intro hne hhash
    simp [volumeCreate, volumeFolderGuardRejects, hne, hhash]

/-- C10 witness: a non-empty path that the file system reports as missing
passes the guard, and the create fails later inside `hashdir.Make`; the empty
path is rejected by the guard itself. -/
theorem c10_volume_folder_guard_witness :
    volumeFolderGuardRejects (fun _ => true) "/does/not/exist" = false ∧
    (volumeCreate
      { statIsNotExist := fun _ => true
        hashdirMake := fun _ => .error "lstat /does/not/exist: no such file or directory"
        mksquashfs := fun _ _ => .ok ()
        folderSize := fun _ => .ok 0
        storeFile := fun _ => .ok (sampleMessage, "filehash") }
      0 "vol"
      { account := zeroAccountState, channel := "TEST"
        folderPath := "/does/not/exist", size := 0 }
      false).1 = .err "lstat /does/not/exist: no such file or directory" ∧
    (volumeCreate
      { statIsNotExist := fun _ => true
        hashdirMake := fun _ => .error "lstat : no such file or directory"
        mksquashfs := fun _ _ => .ok ()
        folderSize := fun _ => .ok 0
        storeFile := fun _ => .ok (sampleMessage, "filehash") }
      0 "vol"
      { account := zeroAccountState, channel := "TEST"
        folderPath := "", size := 0 }
      false).1 = .err "folder dosn't exists" := by
  refine ⟨?_, ?_, ?_⟩
  · exact (c10_volume_folder_guard (fun _ => true) "/does/not/exist"
      { statIsNotExist := fun _ => true, hashdirMake := fun _ => .error ""
        mksquashfs := fun _ _ => .ok (), folderSize := fun _ => .ok 0
        storeFile := fun _ => .ok (sampleMessage, "") }
      0 "vol" default "").2.1 (by decide)
  · exact (c10_volume_folder_guard (fun _ => true) ""
      { statIsNotExist := fun _ => true
        hashdirMake := fun _ => .error "lstat /does/not/exist: no such file or directory"
        mksquashfs := fun _ _ => .ok (), folderSize := fun _ => .ok 0
        storeFile := fun _ => .ok (sampleMessage, "filehash") }
      0 "vol"
      { account := zeroAccountState, channel := "TEST"
        folderPath := "/does/not/exist", size := 0 } "lstat /does/not/exist: no such file or directory").2.2.2
      (by decide) rfl
  · exact (c10_volume_folder_guard (fun _ => true) ""
      { statIsNotExist := fun _ => true
        hashdirMake := fun _ => .error "lstat : no such file or directory"
        mksquashfs := fun _ _ => .ok (), folderSize := fun _ => .ok 0
        storeFile := fun _ => .ok (sampleMessage, "filehash") }
      0 "vol"
      { account := zeroAccountState, channel := "TEST"
        folderPath := "", size := 0 } "").2.2.1 rfl rfl

/-! ## C9 -/

/-- An oracle for Account Create whose HD-wallet library rejects the supplied
mnemonic (failed checksum); the remaining collaborators are immaterial. -/
def failingMnemonicOracle : AccountOracle Unit Unit :=
  { hexutilDecode := fun _ => .error "hex string without 0x prefix"
    cryptoToECDSA := fun _ => .error "invalid length, need 256 bits"
    publicKeyCast := fun _ => none
    pubkeyToAddressHex := fun _ => ""
    newFromMnemonic := fun _ => .error "mnemonic checksum failed"
    mustParseDerivationPath := fun _ => none
    derive := fun _ _ => .error ""
    publicKeyBytes := fun _ _ => .error ""
    privateKeyBytes := fun _ _ => .error ""
    addressHex := fun _ _ => .error "" }

/-- C9 counterexample: the claim says an invalid mnemonic yields an error
returned to the caller.  In the source a failing `hdwallet.NewFromMnemonic`
hits `log.Fatal(err)`: the process terminates and no error is returned — the
outcome is `.fatal`, not an error return. -/
theorem c9_invalid_mnemonic_terminates_process :
    accountCreate failingMnemonicOracle "acct"
      { privateKey := "", mnemonic := "bad mnemonic words", derivationPath := "" }
      false = .fatal "mnemonic checksum failed" ∧
    (accountCreate failingMnemonicOracle "acct"
      { privateKey := "", mnemonic := "bad mnemonic words", derivationPath := "" }
      false).isErrReturn = false := by
  refine ⟨rfl, rfl⟩

/-- C9 amended: an invalid-hex private key and a non-scalar private key each
produce an error returned to the caller, as does the absence of both secrets;
but a mnemonic failing validation terminates the process through `log.Fatal`
instead of returning the error. -/
theorem c9_identity_error_paths {W A : Type} (o : AccountOracle W A)
    (name : String) (input : TwentySixAccountArgs) (e : String)
    (bytes : List Nat) :
    (input.privateKey.length > 0 → o.hexutilDecode input.privateKey = .error e →
      accountCreate o name input false = .err "error casting public key to bytes") ∧
    (input.privateKey.length > 0 → o.hexutilDecode input.privateKey = .ok bytes →
      o.cryptoToECDSA bytes = .error e →
      accountCreate o name input false = .err "error casting public key to ECDSA") ∧
    (input.privateKey.length = 0 → input.mnemonic.length = 0 →
      accountCreate o name input false = .err "no private key or mnemonic provided") ∧
    (input.privateKey.length = 0 → input.mnemonic.length > 0 →
      o.newFromMnemonic input.mnemonic = .error e →
      accountCreate o name input false = .fatal e) := by
  refine ⟨?_, ?_, ?_, ?_⟩
  · intro hpk hdec
    simp [accountCreate, hpk, hdec]
  · intro hpk hdec hkey
    simp [accountCreate, hpk, hdec, hkey]
  · intro hpk hmn
    simp [accountCreate, hpk, hmn]
  · intro hpk hmn hwallet
    simp [accountCreate, hpk, hmn, hwallet]

/-- C9 witness: with neither secret supplied the missing-secret error is
returned, and with only an invalid private key the hex-decoding error path is
returned. -/
theorem c9_identity_error_paths_witness :
    accountCreate failingMnemonicOracle "acct"
      { privateKey := "", mnemonic := "", derivationPath := "" } false
      = .err "no private key or mnemonic provided" ∧
    accountCreate failingMnemonicOracle "acct"
      { privateKey := "zz-not-hex", mnemonic := "", derivationPath := "" } false
      = .err "error casting public key to bytes" := by
  refine ⟨?_, ?_⟩
  · exact (c9_identity_error_paths failingMnemonicOracle "acct"
      { privateKey := "", mnemonic := "", derivationPath := "" } "" []).2.2.1
      rfl rfl
  · exact (c9_identity_error_paths failingMnemonicOracle "acct"
      { privateKey := "zz-not-hex", mnemonic := "", derivationPath := "" }
      "hex string without 0x prefix" []).1 (by decide) rfl

/-! ## C1 -/

/-- C1 counterexample: the claim says every resource kind's Create with
`preview = true` returns the input spec unchanged and performs no network
operation.  `TwentySixFunction.Create` never reads the preview flag: with
`preview = true` it still performs the broadcast (second component `true`) and
returns whatever the network produced — here a transport error — instead of
the input spec. -/
theorem c1_function_create_preview_counterexample :
    functionCreate "fn" zeroFunctionArgs (.error "network unreachable") 0 [] true
      = ⟨some (.err "network unreachable"), true⟩ := rfl

/-- C1 amended: Volume Create and Account Create honour the dry-run contract —
with `preview = true` they return the input spec unchanged with no network
effect — but Function Create ignores the preview flag entirely: it always
performs the broadcast, and its result does not depend on `preview`. -/
theorem c1_preview_dry_run (o : VolumeOracle) (now : Int) (name : String)
    (vinput : TwentySixVolumeArgs) {W A : Type} (ao : AccountOracle W A)
    (ainput : TwentySixAccountArgs) (finput : TwentySixFunctionArgs)
    (net : Except String (Message × MessageResponse)) (startAt : Int)
    (trace : List PollStep) (preview : Bool) :
    volumeCreate o now name vinput true =
      (.ok name
        { args := vinput, folderHash := "", fileHash := "", messageHash := "" },
       false) ∧
    accountCreate ao name ainput true =
      .ok name { args := ainput, address := "", publicKey := "" } ∧
    (functionCreate name finput net startAt trace preview).broadcastPerformed
      = true ∧
    functionCreate name finput net startAt trace true =
      functionCreate name finput net startAt trace false := by
  refine ⟨rfl, rfl, ?_, rfl⟩
  cases net with
  | error e => rfl
  | ok p =>
    obtain ⟨m, resp⟩ := p
    unfold functionCreate
    dsimp only
    split
    · rfl
    · split
      · rfl
      · cases waitForAllocation startAt functionCreateTimeout trace <;> rfl

/-! ## C6 -/

/-- C6: `SignMessage` signs exactly the newline-joined
`chain\nsender\ntype\nitemHash` payload, hashed with the Ethereum text-hash
prefix scheme (`accounts.TextHash`) and signed with the recoverable scheme
(`crypto.Sign`); given the library contract that the raw signature is 65
bytes with recovery id 0 or 1, the stored signature bytes keep the fixed
65-byte length and their recovery-id byte is the base recovery value plus 27,
hex-encoded afterwards. -/
theorem c6_sign_message_recovery_offset {K : Type}
    (o : SignOracle K) (msg : Message) (pkey : String)
    (keyBytes : List Nat) (key : K) (sig : List Nat)
    (hdec : o.hexutilDecode pkey = .ok keyBytes)
    (hkey : o.cryptoToECDSA keyBytes = .ok key)
    (hsig : o.cryptoSign (o.textHash (getVerificationPayload msg)) key = .ok sig)
    (hlen : sig.length = 65)
    (hrec : sig.getD RecoveryIDOffset 0 ≤ 1) :
    getVerificationPayload msg
      = msg.chain ++ "\n" ++ msg.sender ++ "\n" ++ msg.type ++ "\n" ++ msg.itemHash ∧
    signMessage o msg pkey = .ok { msg with
      signature := hexutilEncode (sig.set RecoveryIDOffset
        ((sig.getD RecoveryIDOffset 0 + 27) % 256)) } ∧
    (sig.set RecoveryIDOffset ((sig.getD RecoveryIDOffset 0 + 27) % 256)).length
      = 65 ∧
    (sig.set RecoveryIDOffset
      ((sig.getD RecoveryIDOffset 0 + 27) % 256)).getD RecoveryIDOffset 0
      = sig.getD RecoveryIDOffset 0 + 27 := by
  have hmod : (sig.getD RecoveryIDOffset 0 + 27) % 256
      = sig.getD RecoveryIDOffset 0 + 27 := Nat.mod_eq_of_lt (by omega)
  refine ⟨rfl, ?_, ?_, ?_⟩
  · simp [signMessage, hdec, hkey, hsig]
  · simp [hlen]
  · rw [hmod]
    have h64 : RecoveryIDOffset < sig.length := by
      simp [RecoveryIDOffset, hlen]
    simp [List.getD, List.getElem?_set_self h64]

/-- A concrete sign oracle: the hash is 32 zero bytes and `crypto.Sign`
yields a 65-byte signature whose recovery id is 1. -/
def sampleSignOracle : SignOracle Unit :=
  { textHash := fun _ => List.replicate 32 0
    hexutilDecode := fun _ => .ok [1]
    cryptoToECDSA := fun _ => .ok ()
    cryptoSign := fun _ _ => .ok (List.replicate 64 2 ++ [1]) }

/-- C6 witness: at the concrete oracle the signed message carries the
65-byte signature whose last byte is the base recovery value 1 plus 27. -/
theorem c6_sign_message_witness :
    signMessage sampleSignOracle sampleMessage "0x01"
      = .ok { sampleMessage with
          signature := hexutilEncode ((List.replicate 64 2 ++ [1]).set RecoveryIDOffset
            (((List.replicate 64 2 ++ [1]).getD RecoveryIDOffset 0 + 27) % 256)) } ∧
    ((List.replicate 64 2 ++ [1]).set RecoveryIDOffset
      (((List.replicate 64 2 ++ [1]).getD RecoveryIDOffset 0 + 27) % 256)).getD
        RecoveryIDOffset 0
      = (List.replicate 64 2 ++ [1]).getD RecoveryIDOffset 0 + 27 := by
  have h := c6_sign_message_recovery_offset sampleSignOracle sampleMessage "0x01"
    [1] () (List.replicate 64 2 ++ [1]) rfl rfl rfl (by decide) (by decide)
  exact ⟨h.2.1, h.2.2.2⟩

/-! ## C7 -/

/-- An all-error poll trace whose sampled times never pass the deadline keeps
the loop running. -/
lemma waitForAllocation_stillRunning (startAt timeout : Int)
    (trace : List PollStep)
    (h : ∀ step ∈ trace,
      errIsNil step.result = false ∧ step.time ≤ startAt + timeout) :
    waitForAllocation startAt timeout trace = .stillRunning := by
  induction trace with
  | nil => rfl
  | cons step rest ih =>
    obtain ⟨herr, htime⟩ := h step (List.mem_cons_self _ _)
    cases hres : step.result with
    | ok a => simp [errIsNil, hres] at herr
    | error e =>
      rw [waitForAllocation, hres]
      rw [if_neg (not_lt.mpr htime)]
      exact ih fun s hs => h s (List.mem_cons_of_mem _ hs)

/-- An all-error poll trace that contains a sample past the deadline makes
the loop fail with the timeout error. -/
lemma waitForAllocation_timedOut (startAt timeout : Int)
    (trace : List PollStep)
    (herr : ∀ step ∈ trace, errIsNil step.result = false)
    (hex : ∃ step ∈ trace, startAt + timeout < step.time) :
    waitForAllocation startAt timeout trace = .timedOut := by
  induction trace with
  | nil =>
    obtain ⟨s, hs, _⟩ := hex
    cases hs
  | cons step rest ih =>
    cases hres : step.result with
    | ok a =>
      have := herr step (List.mem_cons_self _ _)
      simp [errIsNil, hres] at this
    | error e =>
      rw [waitForAllocation, hres]
      by_cases ht : startAt + timeout < step.time
      · rw [if_pos ht]
      · rw [if_neg ht]
        refine ih (fun s hs => herr s (List.mem_cons_of_mem _ hs)) ?_
        obtain ⟨s, hs, hstime⟩ := hex
        rcases List.mem_cons.mp hs with rfl | hs'
        · exact absurd hstime ht
        · exact ⟨s, hs', hstime⟩

/-- Transient errors before the deadline are retried: the first successful
poll yields its allocation. -/
lemma waitForAllocation_allocated (startAt timeout : Int)
    (pre : List PollStep) (t : Int) (alloc : SchedulerAllocation)
    (rest : List PollStep)
    (h : ∀ step ∈ pre,
      errIsNil step.result = false ∧ step.time ≤ startAt + timeout) :
    waitForAllocation startAt timeout (pre ++ ⟨t, .ok alloc⟩ :: rest)
      = .allocated alloc := by
  induction pre with
  | nil => rfl
  | cons step ps ih =>
    obtain ⟨herr, htime⟩ := h step (List.mem_cons_self _ _)
    cases hres : step.result with
    | ok a => simp [errIsNil, hres] at herr
    | error e =>
      rw [List.cons_append, waitForAllocation, hres]
      rw [if_neg (not_lt.mpr htime)]
      exact ih fun s hs => h s (List.mem_cons_of_mem _ hs)

/-- After an accepted (non-rejected, succeeded) broadcast, Function Create's
outcome is decided by the poll loop alone. -/
lemma functionCreate_outcome_eq (name : String) (input : TwentySixFunctionArgs)
    (m : Message) (resp : MessageResponse) (startAt : Int)
    (trace : List PollStep) (preview : Bool)
    (hrej : resp.status ≠ RejectedMessageStatus)
    (hpub : resp.publicationStatusStatus = SucceedMessageStatus) :
    (functionCreate name input (.ok (m, resp)) startAt trace preview).outcome =
      match waitForAllocation startAt functionCreateTimeout trace with
      | .allocated alloc => some (.ok name
          { args := input
            schedulerAllocation := alloc
            messageHash := m.itemHash })
      | .timedOut => some (.err "timeout waiting for instance")
      | .stillRunning => none := by
  rw [functionCreate]
  rw [if_neg (by simpa using hrej)]
  rw [if_neg (by simp [hpub])]
  cases waitForAllocation startAt functionCreateTimeout trace <;> rfl

/-- C7: for Function Create after an accepted broadcast, an all-error poll
trace within the 1800-second deadline keeps Create waiting (no early
`ProvisioningTimeout`); once a poll samples a time past `startAt + 1800` the
timeout error is returned; with the fixed 10-second sleep per iteration the
wait is bounded — 181 error polls force the timeout; and transient query
errors before the deadline are retried, a later allocation completing Create
successfully. -/
theorem c7_function_create_bounded_polling (name : String)
    (input : TwentySixFunctionArgs) (m : Message) (resp : MessageResponse)
    (startAt : Int) (preview : Bool)
    (hrej : resp.status ≠ RejectedMessageStatus)
    (hpub : resp.publicationStatusStatus = SucceedMessageStatus) :
    (∀ trace : List PollStep,
      (∀ step ∈ trace, errIsNil step.result = false ∧
        step.time ≤ startAt + functionCreateTimeout) →
      (functionCreate name input (.ok (m, resp)) startAt trace preview).outcome
        = none) ∧
    (∀ trace : List PollStep,
      (∀ step ∈ trace, errIsNil step.result = false) →
      (∃ step ∈ trace, startAt + functionCreateTimeout < step.time) →
      (functionCreate name input (.ok (m, resp)) startAt trace preview).outcome
        = some (.err "timeout waiting for instance")) ∧
    (∀ trace : List PollStep,
      (∀ step ∈ trace, errIsNil step.result = false) →
      (∀ i, ∀ hi : i < trace.length,
        startAt + functionCreatePollInterval * ((i : Int) + 1)
          ≤ (trace.get ⟨i, hi⟩).time) →
      181 ≤ trace.length →
      (functionCreate name input (.ok (m, resp)) startAt trace preview).outcome
        = some (.err "timeout waiting for instance")) ∧
    (∀ (pre : List PollStep) (t : Int) (alloc : SchedulerAllocation)
        (rest : List PollStep),
      (∀ step ∈ pre, errIsNil step.result = false ∧
        step.time ≤ startAt + functionCreateTimeout) →
      (functionCreate name input (.ok (m, resp)) startAt
        (pre ++ ⟨t, .ok alloc⟩ :: rest) preview).outcome
        = some (.ok name
            { args := input
              schedulerAllocation := alloc
              messageHash := m.itemHash })) := by
  refine ⟨?_, ?_, ?_, ?_⟩
  · intro trace h
    rw [functionCreate_outcome_eq name input m resp startAt trace preview hrej hpub]
    rw [waitForAllocation_stillRunning startAt functionCreateTimeout trace h]
  · intro trace herr hex
    rw [functionCreate_outcome_eq name input m resp startAt trace preview hrej hpub]
    rw [waitForAllocation_timedOut startAt functionCreateTimeout trace herr hex]
  · intro trace herr hidx hlen
    rw [functionCreate_outcome_eq name input m resp startAt trace preview hrej hpub]
    have hi : 180 < trace.length := by omega
    have hstep := hidx 180 hi
    rw [waitForAllocation_timedOut startAt functionCreateTimeout trace herr
      ⟨trace.get ⟨180, hi⟩, List.get_mem trace 180 hi, by
        simp only [functionCreatePollInterval] at hstep
        simp only [functionCreateTimeout]
        push_cast at hstep
        omega⟩]
  · intro pre t alloc rest h
    rw [functionCreate_outcome_eq name input m resp startAt _ preview hrej hpub]
    rw [waitForAllocation_allocated startAt functionCreateTimeout pre t alloc rest h]

/-- C7 witness: with an accepted broadcast, a single early failed poll keeps
Create waiting; a poll trace whose second sample passes the deadline returns
the timeout error; and an error followed by an allocation succeeds. -/
theorem c7_function_create_bounded_polling_witness :
    (functionCreate "fn" zeroFunctionArgs
      (.ok (sampleMessage, ⟨"processed", "success"⟩)) 0
      [⟨10, .error "not scheduled"⟩] false).outcome = none ∧
    (functionCreate "fn" zeroFunctionArgs
      (.ok (sampleMessage, ⟨"processed", "success"⟩)) 0
      [⟨10, .error "e"⟩, ⟨1810, .error "e"⟩] false).outcome
      = some (.err "timeout waiting for instance") ∧
    (functionCreate "fn" zeroFunctionArgs
      (.ok (sampleMessage, ⟨"processed", "success"⟩)) 0
      [⟨10, .error "e"⟩, ⟨20, .ok ⟨"vm1"⟩⟩] false).outcome
      = some (.ok "fn"
          { args := zeroFunctionArgs
            schedulerAllocation := ⟨"vm1"⟩
            messageHash := sampleMessage.itemHash }) := by
  have h := c7_function_create_bounded_polling "fn" zeroFunctionArgs
    sampleMessage ⟨"processed", "success"⟩ 0 false (by decide) rfl
  refine ⟨h.1 _ ?_, h.2.1 _ ?_ ?_, h.2.2.2 [⟨10, .error "e"⟩] 20 ⟨"vm1"⟩ [] ?_⟩
  · decide
  · decide
  · decide
  · decide

/-! ## C8 -/

/-- C8 counterexample: the claim says the post-upload index query loops with
a 5-second delay and treats a not-yet-indexed result as retryable for several
attempts.  In the source `GetVolumeByItemHash` returns the fatal error
"volume not found" as soon as the listing is exhausted (here: one page with
no match and nothing remaining), and `StoreFile` returns that error unchanged
— the single attempt after the single 5-second sleep is final. -/
theorem c8_store_file_not_indexed_is_fatal :
    getVolumeByItemHashLoop "abc123" (fun _ => default) [.ok ([], 0)]
      = some (.error "volume not found") ∧
    storeFileFinalize
      { hash := "abc123", status := "pending", name := "f.squashfs", size := 100 }
      (.error "volume not found")
      = .error "volume not found" := by
  refine ⟨rfl, rfl⟩

/-- C8 amended: after the upload is accepted, `StoreFile` sleeps exactly once
for the fixed 5 seconds and performs a single index query by the returned
content hash; a found record is returned together with that hash, while any
lookup failure — including the not-yet-indexed "volume not found" — is
returned to the caller unchanged, with no retry. -/
theorem c8_store_file_single_lookup
    (resp : StoreIPFSFileResponse) (lookup : Except String Message)
    (e : String) (m : Message) (v : Message) (r : Nat)
    (parse : String → StoreMessageContent) (hash : String) :
    storeFileDelaySeconds = 5 ∧
    (lookup = .error e → storeFileFinalize resp lookup = .error e) ∧
    (lookup = .ok m → storeFileFinalize resp lookup = .ok (m, resp.hash)) ∧
    ((parse v.itemContent).itemHash = hash →
      getVolumeByItemHashLoop hash parse [.ok ([v], r)] = some (.ok v)) := by
  refine ⟨rfl, ?_, ?_, ?_⟩
  · rintro rfl
    rfl
  · rintro rfl
    rfl
  · intro hfound
    simp [getVolumeByItemHashLoop, hfound]

/-- C8 witness: a successful single lookup returns the indexed message with
the uploaded content hash, and a failed single lookup propagates its error. -/
theorem c8_store_file_single_lookup_witness :
    storeFileFinalize
      { hash := "abc123", status := "pending", name := "f.squashfs", size := 100 }
      (.ok sampleMessage)
      = .ok (sampleMessage, "abc123") ∧
    storeFileFinalize
      { hash := "abc123", status := "pending", name := "f.squashfs", size := 100 }
      (.error "connection reset")
      = .error "connection reset" := by
  refine ⟨?_, ?_⟩
  · exact (c8_store_file_single_lookup
      { hash := "abc123", status := "pending", name := "f.squashfs", size := 100 }
      (.ok sampleMessage) "" sampleMessage sampleMessage 0 (fun _ => default)
      "").2.2.1 rfl
  · exact (c8_store_file_single_lookup
      { hash := "abc123", status := "pending", name := "f.squashfs", size := 100 }
      (.error "connection reset") "connection reset" sampleMessage sampleMessage
      0 (fun _ => default) "").2.1 rfl

end TwentySix
